import Mathlib

/-!
Verification of the stationary subspace analysis (SSA) training module
`src/synthetic/sssa.py`.

The module is a VAE whose latent space splits into a content subspace
(first `c_dim` coordinates) and a style subspace (last `s_dim` coordinates).
Its training and validation steps compose a scalar loss
`recon + beta * kld_content + gamma * kld_style`, where the style KLD routes
each row's style residual through the normalizing flow matching that row's
domain label via a one-hot masked sum, and the validation step additionally
tracks running-best R2 / MCC records.

Shallow embedding conventions:
  * tensors of shape `[n, d]` are functions `Fin n → Fin d → ℚ`;
  * external collaborators (the `BetaVAE_MLP` network, the per-domain
    `NormalizingFlow` splines, `torch` distribution log-densities, the losses
    `F.mse_loss` / `F.binary_cross_entropy_with_logits`, `compute_r2`,
    `compute_mcc`) are fields of the model record, exactly as the Python
    object holds them as attributes — their internals are outside this
    repository;
  * a Python `assert` failure and an unbound local variable at `return` are
    the two error outcomes of `reconstruction_loss`, modelled with `Except`;
  * `tensor.mean()` over `n` entries is the sum divided by `n`.
-/

/-- The two run-time failures reachable in `SSA.reconstruction_loss`
(`sssa.py` lines 124-139): the `assert batch_size != 0` failure, and the
`UnboundLocalError` raised at `return recon_loss` when no `if` branch of the
distribution dispatch bound `recon_loss`. -/
inductive StepError where
  | assertionError
  | unboundLocalError
deriving DecidableEq

/-- Result of `SSA.configure_optimizers` (`sssa.py` lines 294-301): either an
`AdamW` or an `RMSprop` optimizer object (their construction parameters live in
the external framework). -/
inductive OptimizerChoice where
  | adamW
  | rmsprop
deriving DecidableEq

/-- The `raise NotImplementedError` outcome of `SSA.configure_optimizers`. -/
inductive ConfigError where
  | notImplementedError
deriving DecidableEq

/-- Python's `str.lower()` (used as `self.optimizer.lower()` in
`configure_optimizers`), character-wise lowercasing; on the ASCII optimizer
names involved this agrees with Python's Unicode lowercasing. -/
def strLower (s : String) : String := String.mk (s.data.map Char.toLower)

/-- The running-best records held on the `SSA` object, one field per Python
attribute initialised in `__init__` (`sssa.py` lines 65-71). -/
structure BestState where
  best_r2 : ℚ
  best_mcc : ℚ
  best_sum : ℚ
  best_sum_mcc : ℚ
  best_sum_r2 : ℚ
  r2_at_best_mcc : ℚ
  mcc_at_best_r2 : ℚ
deriving DecidableEq

/-- The initial record state set in `SSA.__init__` (`sssa.py` lines 65-71):
every field starts at `0.`. -/
def bestInit : BestState :=
  { best_r2 := 0, best_mcc := 0, best_sum := 0, best_sum_mcc := 0,
    best_sum_r2 := 0, r2_at_best_mcc := 0, mcc_at_best_r2 := 0 }

/-- The running-best update block at the end of `SSA.validation_step`
(`sssa.py` lines 258-275): three sequential `if` statements guarded by `>=`
comparisons, mutating the record fields in place. -/
def updateBest (b : BestState) (r2 mcc : ℚ) : BestState :=
  let b1 := if b.best_r2 ≤ r2 then
    { b with best_r2 := r2, mcc_at_best_r2 := mcc } else b
  let b2 := if b1.best_mcc ≤ mcc then
    { b1 with best_mcc := mcc, r2_at_best_mcc := r2 } else b1
  if b2.best_sum ≤ mcc + r2 then
    { b2 with best_sum := mcc + r2, best_sum_mcc := mcc, best_sum_r2 := r2 }
  else b2

/-- The `SSA` model object (`sssa.py` lines 14-109): its construction-time
configuration together with the external collaborators it stores as
attributes.  The network `net`, the per-domain splines `spline_list`, the
elementwise Normal log-density used by `torch.distributions.Normal.log_prob`,
`torch.exp`, the `MultivariateNormal(0, I)` log-density `base_dist_log_prob`,
the summed losses `F.mse_loss` / `F.binary_cross_entropy_with_logits`
(`size_average=False`), `torch.sigmoid`, and the metric routines
`compute_r2` / `compute_mcc` are external components consumed by the module,
so they appear as unconstrained function-valued fields.  `spline_list k`
applied to one row returns that flow's transformed row and its
log-abs-det-Jacobian, the flow acting row-independently on a batch. -/
structure SSAModel where
  input_dim : ℕ
  c_dim : ℕ
  s_dim : ℕ
  nclass : ℕ
  embedding_dim : ℕ
  optimizer : String
  beta : ℚ
  gamma : ℚ
  decoder_dist : String
  correlation : String
  hz_to_z : Bool
  net : (n : ℕ) → (Fin n → Fin (input_dim + embedding_dim) → ℚ) →
      (Fin n → Fin input_dim → ℚ) × (Fin n → Fin (c_dim + s_dim) → ℚ) ×
      (Fin n → Fin (c_dim + s_dim) → ℚ) × (Fin n → Fin (c_dim + s_dim) → ℚ)
  embeddings : ℕ → Fin embedding_dim → ℚ
  spline_list : ℕ → (Fin s_dim → ℚ) → (Fin s_dim → ℚ) × ℚ
  normalLogPdf : ℚ → ℚ → ℚ → ℚ
  expQ : ℚ → ℚ
  base_dist_log_prob : (Fin s_dim → ℚ) → ℚ
  mse_loss_sum : (n d1 d2 : ℕ) → (Fin n → Fin d1 → ℚ) → (Fin n → Fin d2 → ℚ) → ℚ
  bce_logits_sum : (n d1 d2 : ℕ) → (Fin n → Fin d1 → ℚ) → (Fin n → Fin d2 → ℚ) → ℚ
  sigmoidQ : ℚ → ℚ
  compute_r2 : (n d : ℕ) → (Fin n → Fin d → ℚ) → (Fin n → Fin d → ℚ) → ℚ
  compute_mcc : (d n : ℕ) → (Fin d → Fin n → ℚ) → (Fin d → Fin n → ℚ) → String → ℚ

/-- `SSA.reconstruction_loss` (`sssa.py` lines 124-139): assert the batch is
non-empty, dispatch on the distribution name, divide the summed loss by the
batch size; any other name leaves `recon_loss` unbound so the `return`
raises `UnboundLocalError`. -/
def reconstructionLoss (M : SSAModel) (n d1 d2 : ℕ) (x : Fin n → Fin d1 → ℚ)
    (x_recon : Fin n → Fin d2 → ℚ) (distribution : String) :
    Except StepError ℚ :=
  if n = 0 then .error .assertionError
  else if distribution = "bernoulli" then
    .ok (M.bce_logits_sum n d2 d1 x_recon x / (n : ℚ))
  else if distribution = "gaussian" then
    .ok (M.mse_loss_sum n d2 d1 x_recon x / (n : ℚ))
  else if distribution = "sigmoid_gaussian" then
    .ok (M.mse_loss_sum n d2 d1 (fun i j => M.sigmoidQ (x_recon i j)) x / (n : ℚ))
  else .error .unboundLocalError

/-- The optional domain-embedding concatenation at the top of
`training_step` / `validation_step` (`sssa.py` lines 151-152 / 198-199):
`x = torch.cat([x, self.embeddings(c)], dim=1)` when `embedding_dim > 0`,
otherwise `x` unchanged. -/
def concatInput (M : SSAModel) (n : ℕ) (x : Fin n → Fin M.input_dim → ℚ)
    (c : Fin n → ℕ) : Fin n → Fin (M.input_dim + M.embedding_dim) → ℚ :=
  if h : 0 < M.embedding_dim then
    fun i => Fin.append (x i) (M.embeddings (c i))
  else
    fun i d => x i ⟨d.val, by have hd := d.isLt; omega⟩

/-- The elementwise posterior log-density matrix
`log_qz = D.Normal(mus, torch.exp(logvars / 2)).log_prob(zs)`
(`sssa.py` line 157-158). -/
def logQz (M : SSAModel) (n : ℕ)
    (mus logvars zs : Fin n → Fin (M.c_dim + M.s_dim) → ℚ) :
    Fin n → Fin (M.c_dim + M.s_dim) → ℚ :=
  fun i d => M.normalLogPdf (mus i d) (M.expQ (logvars i d / 2)) (zs i d)

/-- The content KLD term of `training_step` / `validation_step`
(`sssa.py` lines 159-164): per row, the summed content-dimension posterior
log-density minus the summed standard-normal prior log-density at the sampled
`zs`, averaged over the batch. -/
def kldContent (M : SSAModel) (n : ℕ)
    (mus logvars zs : Fin n → Fin (M.c_dim + M.s_dim) → ℚ) : ℚ :=
  (∑ i : Fin n,
    ((∑ d : Fin M.c_dim, logQz M n mus logvars zs i (Fin.castAdd M.s_dim d)) -
     (∑ d : Fin M.c_dim, M.normalLogPdf 0 1 (zs i (Fin.castAdd M.s_dim d))))) /
    (n : ℚ)

/-- The one-hot mask entry `F.one_hot(c, num_classes=nclass)[i][k]`
(`sssa.py` line 169). -/
def maskOneHot (nclass label : ℕ) (k : Fin nclass) : ℚ :=
  if label = k.val then 1 else 0

/-- The masked flow selection of the nonstationary branch
(`sssa.py` lines 171-183): every flow is applied to the full batch of style
residuals, the outputs are stacked along a class axis, multiplied by the
one-hot domain mask (`es * mask.unsqueeze(-1)` and `logabsdet * mask`), and
summed over the class axis. -/
def flowMaskedSelect (M : SSAModel) (n : ℕ)
    (residuals : Fin n → Fin M.s_dim → ℚ) (c : Fin n → ℕ) :
    (Fin n → Fin M.s_dim → ℚ) × (Fin n → ℚ) :=
  (fun i d => ∑ k : Fin M.nclass,
      (M.spline_list k.val (residuals i)).1 d * maskOneHot M.nclass (c i) k,
   fun i => ∑ k : Fin M.nclass,
      (M.spline_list k.val (residuals i)).2 * maskOneHot M.nclass (c i) k)

/-- The per-row gather reference implementation from the spec (section 8:
"rows with label 0/1/2 must receive exactly the flow-0/1/2 output ... a
per-row loop reference implementation"): each row's style residual is routed
through the single flow named by that row's domain label. -/
def flowGatherSelect (M : SSAModel) (n : ℕ)
    (residuals : Fin n → Fin M.s_dim → ℚ) (c : Fin n → ℕ) :
    (Fin n → Fin M.s_dim → ℚ) × (Fin n → ℚ) :=
  (fun i => (M.spline_list (c i) (residuals i)).1,
   fun i => (M.spline_list (c i) (residuals i)).2)

/-- The first `c_dim` columns of a `[n, c_dim + s_dim]` matrix
(`m[:, :c_dim]`). -/
def contentPart (n c s : ℕ) (m : Fin n → Fin (c + s) → ℚ) :
    Fin n → Fin c → ℚ :=
  fun i d => m i (Fin.castAdd s d)

/-- The last `s_dim` columns of a `[n, c_dim + s_dim]` matrix
(`m[:, c_dim:]`). -/
def stylePart (n c s : ℕ) (m : Fin n → Fin (c + s) → ℚ) :
    Fin n → Fin s → ℚ :=
  fun i d => m i (Fin.natAdd c d)

/-- The style KLD term of `training_step` / `validation_step`
(`sssa.py` lines 166-186): per row, the summed style-dimension posterior
log-density minus the flow-model log-density (base-distribution log-density of
the mask-selected transformed residual plus the mask-selected
log-abs-det-Jacobian), averaged over the batch. -/
def kldStyle (M : SSAModel) (n : ℕ)
    (mus logvars zs : Fin n → Fin (M.c_dim + M.s_dim) → ℚ)
    (c : Fin n → ℕ) : ℚ :=
  let log_qz := logQz M n mus logvars zs
  let residuals := stylePart n M.c_dim M.s_dim zs
  let sel := flowMaskedSelect M n residuals c
  (∑ i : Fin n,
    ((∑ d : Fin M.s_dim, log_qz i (Fin.natAdd M.c_dim d)) -
     (M.base_dist_log_prob (sel.1 i) + sel.2 i))) / (n : ℚ)

/-- `SSA.training_step` (`sssa.py` lines 148-193): concatenate the optional
domain embedding, run the network, compute the reconstruction loss (which can
fail), the content KLD and the style KLD, and return
`recon_loss + beta * kld_content + gamma * kld_style`.  Logging calls are
side effects outside the return contract. -/
def trainingStep (M : SSAModel) (n : ℕ) (x : Fin n → Fin M.input_dim → ℚ)
    (c : Fin n → ℕ) : Except StepError ℚ :=
  let xin := concatInput M n x c
  let out := M.net n xin
  (reconstructionLoss M n (M.input_dim + M.embedding_dim) M.input_dim
      xin out.1 M.decoder_dist).map fun recon_loss =>
    recon_loss + M.beta * kldContent M n out.2.1 out.2.2.1 out.2.2.2 +
      M.gamma * kldStyle M n out.2.1 out.2.2.1 out.2.2.2 c

/-- The R2 computation of `validation_step` (`sssa.py` lines 242-245):
`compute_r2(mus[:, :c_dim], y[:, :c_dim])` when `hz_to_z is False`, the
swapped argument order otherwise. -/
def r2Metric (M : SSAModel) (n : ℕ)
    (mus y : Fin n → Fin (M.c_dim + M.s_dim) → ℚ) : ℚ :=
  if M.hz_to_z = false then
    M.compute_r2 n M.c_dim (contentPart n M.c_dim M.s_dim mus)
      (contentPart n M.c_dim M.s_dim y)
  else
    M.compute_r2 n M.c_dim (contentPart n M.c_dim M.s_dim y)
      (contentPart n M.c_dim M.s_dim mus)

/-- The MCC computation of `validation_step` (`sssa.py` lines 247-249):
`compute_mcc` on the transposed style columns of `mus` and `y` with the
configured correlation method. -/
def mccMetric (M : SSAModel) (n : ℕ)
    (mus y : Fin n → Fin (M.c_dim + M.s_dim) → ℚ) : ℚ :=
  M.compute_mcc M.s_dim n
    (fun d i => stylePart n M.c_dim M.s_dim mus i d)
    (fun d i => stylePart n M.c_dim M.s_dim y i d) M.correlation

/-- `SSA.validation_step` (`sssa.py` lines 195-279): the same loss pipeline as
`training_step`, followed by the R2 / MCC metrics and the running-best record
update.  The result carries the returned loss, the step's `r2` and `mcc`, and
the updated record state (the Python mutates `self`; state passing is made
explicit here). -/
def validationStep (M : SSAModel) (best : BestState) (n : ℕ)
    (x : Fin n → Fin M.input_dim → ℚ) (c : Fin n → ℕ)
    (y : Fin n → Fin (M.c_dim + M.s_dim) → ℚ) :
    Except StepError (ℚ × ℚ × ℚ × BestState) :=
  let xin := concatInput M n x c
  let out := M.net n xin
  (reconstructionLoss M n (M.input_dim + M.embedding_dim) M.input_dim
      xin out.1 M.decoder_dist).map fun recon_loss =>
    let loss := recon_loss + M.beta * kldContent M n out.2.1 out.2.2.1 out.2.2.2 +
      M.gamma * kldStyle M n out.2.1 out.2.2.1 out.2.2.2 c
    let r2 := r2Metric M n out.2.1 y
    let mcc := mccMetric M n out.2.1 y
    (loss, r2, mcc, updateBest best r2 mcc)

/-- `SSA.configure_optimizers` (`sssa.py` lines 294-301): lowercase the
configured optimizer name, return `AdamW` for `"adam"`, `RMSprop` for
`"rmsprop"`, and `raise NotImplementedError` otherwise. -/
def configureOptimizers (M : SSAModel) : Except ConfigError OptimizerChoice :=
  if strLower M.optimizer = "adam" then .ok .adamW
  else if strLower M.optimizer = "rmsprop" then .ok .rmsprop
  else .error .notImplementedError

/-- The spline-flow bank construction of `SSA.__init__`
(`sssa.py` lines 89-105): for each `i in range(nclass)` a fresh
`NormalizingFlow` is constructed (its randomly initialised parameter set is
`freshSplineParams i`), then, when `use_warm_start` holds, its parameters are
replaced by `load_state_dict(torch.load(spline_pth))` — the same single path
for every flow.  `P` is the flow's parameter-set type, opaque to this module;
`torchLoad` is the external checkpoint reader. -/
def buildSplineList {P : Type} (nclass : ℕ) (use_warm_start : Bool)
    (spline_pth : String) (freshSplineParams : ℕ → P)
    (torchLoad : String → P) : List P :=
  (List.range nclass).map fun i =>
    let spline := freshSplineParams i
    if use_warm_start then torchLoad spline_pth else spline

/-- A concrete instantiation of the model used to witness the theorems below
on explicit inputs: dimensions `input_dim = 1`, `c_dim = s_dim = 1`,
`nclass = 2`, no domain embedding, gaussian decoder, with simple total
functions standing in for the external collaborators. -/
def testModel : SSAModel where
  input_dim := 1
  c_dim := 1
  s_dim := 1
  nclass := 2
  embedding_dim := 0
  optimizer := "adam"
  beta := 1
  gamma := 1
  decoder_dist := "gaussian"
  correlation := "Pearson"
  hz_to_z := false
  net := fun _ x => (x, fun _ _ => 0, fun _ _ => 0, fun _ _ => 1)
  embeddings := fun _ d => d.elim0
  spline_list := fun k v => (fun d => v d + (k : ℚ), (k : ℚ) + 1)
  normalLogPdf := fun m s v => m - s + v
  expQ := fun q => 1 + q
  base_dist_log_prob := fun v => v 0
  mse_loss_sum := fun _ _ _ _ _ => 0
  bce_logits_sum := fun _ _ _ _ _ => 1
  sigmoidQ := fun q => q
  compute_r2 := fun _ _ _ _ => 0
  compute_mcc := fun _ _ _ _ _ => 0

/-- Concrete batch input (one row, one feature) for the witnesses. -/
def wx : Fin 1 → Fin 1 → ℚ := fun _ _ => 1

/-- Concrete domain labels for the witnesses. -/
def wc : Fin 1 → ℕ := fun _ => 0

/-- Concrete ground-truth factors for the witnesses. -/
def wy : Fin 1 → Fin (1 + 1) → ℚ := fun _ _ => 0

/-- The concatenated network input for the witness batch. -/
def wxin : Fin 1 → Fin (1 + 0) → ℚ := concatInput testModel 1 wx wc

/-- The network output on the witness batch. -/
def wout := testModel.net 1 wxin

/-- A concrete running-best state with `best_r2 = 1`, `best_mcc = 2`,
`best_sum = 3`, distinguishable companion fields. -/
def wbest : BestState :=
  { best_r2 := 1, best_mcc := 2, best_sum := 3, best_sum_mcc := 9,
    best_sum_r2 := 9, r2_at_best_mcc := 9, mcc_at_best_r2 := 9 }

/-- Summing flow outputs against the one-hot mask of an in-range label picks
out exactly the labelled flow's output. -/
theorem sum_masked_eq (nc label : ℕ) (h : label < nc) (v : Fin nc → ℚ) :
    ∑ k : Fin nc, v k * maskOneHot nc label k = v ⟨label, h⟩ := by
  rw [Finset.sum_eq_single ⟨label, h⟩]
  · simp [maskOneHot]
  · intro b _ hb
    have hv : label ≠ b.val := by
      intro hc
      exact hb (Fin.ext hc.symm)
    simp [maskOneHot, hv]
  · intro hmem
    exact absurd (Finset.mem_univ _) hmem

/-- Claim C2: for every batch whose domain labels lie in `[0, nclass)`, the
masked-sum flow selection (apply all `nclass` flows to the full batch's style
residuals, stack, multiply by the one-hot domain mask, sum) yields, for each
row with label `k`, exactly the transformed value and log-abs-det-Jacobian
produced by flow `k` on that row, i.e. the per-row gather reference
implementation. -/
theorem flowMaskedSelect_eq_gather (M : SSAModel) (n : ℕ)
    (residuals : Fin n → Fin M.s_dim → ℚ) (c : Fin n → ℕ)
    (h : ∀ i, c i < M.nclass) :
    flowMaskedSelect M n residuals c = flowGatherSelect M n residuals c := by
  unfold flowMaskedSelect flowGatherSelect
  refine Prod.ext ?_ ?_ <;> funext i
  · funext d
    exact sum_masked_eq M.nclass (c i) (h i)
      (fun k => (M.spline_list k.val (residuals i)).1 d)
  · exact sum_masked_eq M.nclass (c i) (h i)
      (fun k => (M.spline_list k.val (residuals i)).2)

/-- Witness for C2 on a concrete two-row batch with labels `0` and `1` and
flows that differ per class. -/
theorem flowMaskedSelect_eq_gather_witness :
    (∀ i : Fin 2, (fun j : Fin 2 => j.val) i < testModel.nclass) ∧
    flowMaskedSelect testModel 2 (fun i _ => (i.val : ℚ)) (fun j => j.val) =
      flowGatherSelect testModel 2 (fun i _ => (i.val : ℚ)) (fun j => j.val) :=
  ⟨by decide,
   flowMaskedSelect_eq_gather testModel 2 (fun i _ => (i.val : ℚ))
     (fun j => j.val) (by decide)⟩

/-- Claim C3, counterexample: the paired cross-metric record `mcc_at_best_r2`
is not monotone.  Starting from the all-zero construction state, the
evaluation step `(r2, mcc) = (1, 1)` sets `mcc_at_best_r2 = 1`; the next step
`(r2, mcc) = (2, 0)` reaches a new best R2 and overwrites `mcc_at_best_r2`
with `0`, a strict decrease from one evaluation step to the next. -/
theorem runningBest_monotone_counterexample :
    (updateBest (updateBest bestInit 1 1) 2 0).mcc_at_best_r2 <
      (updateBest bestInit 1 1).mcc_at_best_r2 := by
  norm_num [updateBest, bestInit]

/-- Claim C3, amended: across every sequence of validation steps the three
maxima `best_r2`, `best_mcc` and `best_sum` never decrease from one
evaluation step to the next, and all running-best records are initialized to
0 at construction; the paired cross-metric values (`mcc_at_best_r2`,
`r2_at_best_mcc`, and the `best_sum` companions) are overwritten with the
current step's values whenever their criterion reaches a new optimum and can
decrease. -/
theorem runningBest_monotone_amended (b : BestState) (r2 mcc : ℚ) :
    b.best_r2 ≤ (updateBest b r2 mcc).best_r2 ∧
    b.best_mcc ≤ (updateBest b r2 mcc).best_mcc ∧
    b.best_sum ≤ (updateBest b r2 mcc).best_sum ∧
    bestInit.best_r2 = 0 ∧ bestInit.best_mcc = 0 ∧ bestInit.best_sum = 0 ∧
    bestInit.mcc_at_best_r2 = 0 ∧ bestInit.r2_at_best_mcc = 0 ∧
    bestInit.best_sum_mcc = 0 ∧ bestInit.best_sum_r2 = 0 := by
  refine ⟨?_, ?_, ?_, rfl, rfl, rfl, rfl, rfl, rfl, rfl⟩ <;>
    · simp only [updateBest]
      split_ifs <;> simp_all

/-- Claim C4: ties favor the latest observation.  When the step's `r2` equals
the current `best_r2` the `>=` comparison fires, so `best_r2` is replaced and
`mcc_at_best_r2` is set to that step's `mcc`; symmetrically for `mcc` equal to
`best_mcc`, and when `mcc + r2` equals `best_sum` both `best_sum_mcc` and
`best_sum_r2` are overwritten with that step's values. -/
theorem updateBest_tie_latest (b : BestState) (r2 mcc : ℚ) :
    (r2 = b.best_r2 →
      (updateBest b r2 mcc).best_r2 = r2 ∧
      (updateBest b r2 mcc).mcc_at_best_r2 = mcc) ∧
    (mcc = b.best_mcc →
      (updateBest b r2 mcc).best_mcc = mcc ∧
      (updateBest b r2 mcc).r2_at_best_mcc = r2) ∧
    (mcc + r2 = b.best_sum →
      (updateBest b r2 mcc).best_sum = mcc + r2 ∧
      (updateBest b r2 mcc).best_sum_mcc = mcc ∧
      (updateBest b r2 mcc).best_sum_r2 = r2) := by
  simp only [updateBest]
  refine ⟨fun h => ?_, fun h => ?_, fun h => ?_⟩
  · subst h
    split_ifs <;> simp_all
  · subst h
    split_ifs <;> simp_all
  · split_ifs <;> simp_all

/-- Witness for C4 at a concrete state where all three `>=` comparisons are
exact ties: `best_r2 = r2 = 1`, `best_mcc = mcc = 2`,
`best_sum = mcc + r2 = 3`, every companion field previously `9`. -/
theorem updateBest_tie_latest_witness :
    (updateBest wbest 1 2).best_r2 = 1 ∧
    (updateBest wbest 1 2).mcc_at_best_r2 = 2 ∧
    (updateBest wbest 1 2).best_mcc = 2 ∧
    (updateBest wbest 1 2).r2_at_best_mcc = 1 ∧
    (updateBest wbest 1 2).best_sum = 2 + 1 ∧
    (updateBest wbest 1 2).best_sum_mcc = 2 ∧
    (updateBest wbest 1 2).best_sum_r2 = 1 := by
  obtain ⟨h1, h2, h3⟩ := updateBest_tie_latest wbest 1 2
  have a1 := h1 rfl
  have a2 := h2 rfl
  have a3 := h3 (by norm_num [wbest])
  exact ⟨a1.1, a1.2, a2.1, a2.2, a3.1, a3.2.1, a3.2.2⟩

/-- Claim C5: `reconstruction_loss` fails fast with the assertion error
exactly on zero-row batches, before any loss term is computed; on any batch
with at least one row the assertion passes (no assertion error is possible,
whatever the distribution name). -/
theorem reconstructionLoss_zero_batch (M : SSAModel) (n d1 d2 : ℕ)
    (x : Fin n → Fin d1 → ℚ) (xr : Fin n → Fin d2 → ℚ) (dist : String) :
    (n = 0 → reconstructionLoss M n d1 d2 x xr dist = .error .assertionError) ∧
    (n ≠ 0 → reconstructionLoss M n d1 d2 x xr dist ≠ .error .assertionError) := by
  unfold reconstructionLoss
  constructor
  · intro h
    simp [h]
  · intro h
    split_ifs <;> simp_all

/-- Witness for C5: a zero-row gaussian batch hits the assertion error, a
one-row batch does not. -/
theorem reconstructionLoss_zero_batch_witness :
    reconstructionLoss testModel 0 1 1 (fun i _ => i.elim0) (fun i _ => i.elim0)
      "gaussian" = .error .assertionError ∧
    reconstructionLoss testModel 1 1 1 wx wx "gaussian" ≠
      .error .assertionError :=
  ⟨(reconstructionLoss_zero_batch testModel 0 1 1 (fun i _ => i.elim0)
      (fun i _ => i.elim0) "gaussian").1 rfl,
   (reconstructionLoss_zero_batch testModel 1 1 1 wx wx "gaussian").2 (by decide)⟩

/-- Claim C6: `configure_optimizers` dispatches on the lowercased configured
optimizer name: any name other than `adam` / `rmsprop` raises
`NotImplementedError` with no silent fallback, `adam` yields the `AdamW`
optimizer and `rmsprop` the `RMSprop` optimizer. -/
theorem configureOptimizers_dispatch (M : SSAModel) :
    (strLower M.optimizer ≠ "adam" → strLower M.optimizer ≠ "rmsprop" →
      configureOptimizers M = .error .notImplementedError) ∧
    (strLower M.optimizer = "adam" → configureOptimizers M = .ok .adamW) ∧
    (strLower M.optimizer = "rmsprop" → configureOptimizers M = .ok .rmsprop) := by
  unfold configureOptimizers
  refine ⟨fun h1 h2 => ?_, fun h => ?_, fun h => ?_⟩
  · simp [h1, h2]
  · simp [h]
  · simp [h]

/-- Witness for C6 at the concrete names `sgd`, `adam` and `rmsprop`. -/
theorem configureOptimizers_dispatch_witness :
    configureOptimizers { testModel with optimizer := "sgd" } =
      .error .notImplementedError ∧
    configureOptimizers testModel = .ok .adamW ∧
    configureOptimizers { testModel with optimizer := "rmsprop" } =
      .ok .rmsprop :=
  ⟨(configureOptimizers_dispatch { testModel with optimizer := "sgd" }).1
      (by decide) (by decide),
   (configureOptimizers_dispatch testModel).2.1 (by decide),
   (configureOptimizers_dispatch { testModel with optimizer := "rmsprop" }).2.2
      (by decide)⟩

/-- Claim C7: for any decoder distribution family other than `bernoulli`,
`gaussian` or `sigmoid_gaussian`, `reconstruction_loss` falls through every
branch, so `recon_loss` is never bound: on a non-empty batch the `return`
raises `UnboundLocalError`, and in no case does an unsupported family yield a
usable loss value. -/
theorem reconstructionLoss_unsupported_dist (M : SSAModel) (n d1 d2 : ℕ)
    (x : Fin n → Fin d1 → ℚ) (xr : Fin n → Fin d2 → ℚ) (dist : String)
    (h1 : dist ≠ "bernoulli") (h2 : dist ≠ "gaussian")
    (h3 : dist ≠ "sigmoid_gaussian") :
    (n ≠ 0 → reconstructionLoss M n d1 d2 x xr dist = .error .unboundLocalError) ∧
    ∀ q : ℚ, reconstructionLoss M n d1 d2 x xr dist ≠ .ok q := by
  unfold reconstructionLoss
  constructor
  · intro hn
    simp [hn, h1, h2, h3]
  · intro q
    split_ifs <;> simp_all

/-- Witness for C7 at the unsupported family name `poisson` on a one-row
batch. -/
theorem reconstructionLoss_unsupported_dist_witness :
    reconstructionLoss testModel 1 1 1 wx wx "poisson" =
      .error .unboundLocalError :=
  (reconstructionLoss_unsupported_dist testModel 1 1 1 wx wx "poisson"
    (by decide) (by decide) (by decide)).1 (by decide)

/-- Claim C8: on every non-empty batch, when the content-dimension means and
log-variances are all zero the approximate posterior equals the
standard-normal prior on the content subspace (`exp(0 / 2) = 1`), so the
per-row content log-density difference vanishes at the sampled points and
`kld_content = 0`. -/
theorem kldContent_zero_when_posterior_is_prior (M : SSAModel) (n : ℕ)
    (mus logvars zs : Fin n → Fin (M.c_dim + M.s_dim) → ℚ)
    (hexp : M.expQ 0 = 1) (hn : 0 < n)
    (hmus : ∀ i (d : Fin M.c_dim), mus i (Fin.castAdd M.s_dim d) = 0)
    (hlv : ∀ i (d : Fin M.c_dim), logvars i (Fin.castAdd M.s_dim d) = 0) :
    kldContent M n mus logvars zs = 0 := by
  unfold kldContent logQz
  simp [hmus, hlv, hexp]

/-- Witness for C8 on a one-row batch with zero means and log-variances and a
nonzero latent sample. -/
theorem kldContent_zero_witness :
    testModel.expQ 0 = 1 ∧ (0 : ℕ) < 1 ∧
    kldContent testModel 1 (fun _ _ => 0) (fun _ _ => 0) (fun _ _ => 3) = 0 :=
  ⟨by norm_num [testModel], by decide,
   kldContent_zero_when_posterior_is_prior testModel 1 (fun _ _ => 0)
     (fun _ _ => 0) (fun _ _ => 3) (by norm_num [testModel]) (by decide)
     (fun _ _ => rfl) (fun _ _ => rfl)⟩

/-- Claim C1: for every batch and all weights `beta, gamma ≥ 0`, whenever the
reconstruction term of the step evaluates to `r`, the scalar loss returned by
`training_step` — and the loss returned by `validation_step` on the same
batch — is exactly `r + beta * kld_content + gamma * kld_style`, the three
components being the reconstruction, content-KLD and style-KLD terms computed
in that step. -/
theorem step_loss_decomposition (M : SSAModel) (best : BestState) (n : ℕ)
    (x : Fin n → Fin M.input_dim → ℚ) (c : Fin n → ℕ)
    (y : Fin n → Fin (M.c_dim + M.s_dim) → ℚ) (r : ℚ)
    (hbeta : 0 ≤ M.beta) (hgamma : 0 ≤ M.gamma)
    (hrec : reconstructionLoss M n (M.input_dim + M.embedding_dim) M.input_dim
      (concatInput M n x c) (M.net n (concatInput M n x c)).1 M.decoder_dist =
      .ok r) :
    trainingStep M n x c =
      .ok (r +
        M.beta * kldContent M n (M.net n (concatInput M n x c)).2.1
          (M.net n (concatInput M n x c)).2.2.1
          (M.net n (concatInput M n x c)).2.2.2 +
        M.gamma * kldStyle M n (M.net n (concatInput M n x c)).2.1
          (M.net n (concatInput M n x c)).2.2.1
          (M.net n (concatInput M n x c)).2.2.2 c) ∧
    (validationStep M best n x c y).map (fun t => t.1) =
      .ok (r +
        M.beta * kldContent M n (M.net n (concatInput M n x c)).2.1
          (M.net n (concatInput M n x c)).2.2.1
          (M.net n (concatInput M n x c)).2.2.2 +
        M.gamma * kldStyle M n (M.net n (concatInput M n x c)).2.1
          (M.net n (concatInput M n x c)).2.2.1
          (M.net n (concatInput M n x c)).2.2.2 c) := by
  constructor
  · simp only [trainingStep]
    rw [hrec]
    rfl
  · simp only [validationStep]
    rw [hrec]
    rfl

/-- Witness for C1 on a concrete one-row batch of the test model, whose
gaussian reconstruction term evaluates to `0`. -/
theorem step_loss_decomposition_witness :
    (0 : ℚ) ≤ testModel.beta ∧ (0 : ℚ) ≤ testModel.gamma ∧
    reconstructionLoss testModel 1 (1 + 0) 1 wxin wout.1
      testModel.decoder_dist = .ok 0 ∧
    trainingStep testModel 1 wx wc =
      .ok (0 + testModel.beta * kldContent testModel 1 wout.2.1 wout.2.2.1
          wout.2.2.2 +
        testModel.gamma * kldStyle testModel 1 wout.2.1 wout.2.2.1
          wout.2.2.2 wc) ∧
    (validationStep testModel bestInit 1 wx wc wy).map (fun t => t.1) =
      .ok (0 + testModel.beta * kldContent testModel 1 wout.2.1 wout.2.2.1
          wout.2.2.2 +
        testModel.gamma * kldStyle testModel 1 wout.2.1 wout.2.2.1
          wout.2.2.2 wc) := by
  have h := step_loss_decomposition testModel bestInit 1 wx wc wy 0
    (by norm_num [testModel]) (by norm_num [testModel])
    (by simp [reconstructionLoss, testModel])
  exact ⟨by norm_num [testModel], by norm_num [testModel],
    by simp [reconstructionLoss, testModel, wxin, wout], h.1, h.2⟩

/-- Claim C9: the `hz_to_z` flag selects the R2 regression direction in
`validation_step`: on the same inputs, with the flag false the step's R2 is
`compute_r2(mus[:, :c_dim], y[:, :c_dim])` (predicted content means first),
and with the flag true it is `compute_r2(y[:, :c_dim], mus[:, :c_dim])`
(ground truth first). -/
theorem validationStep_r2_direction (M : SSAModel) (best : BestState) (n : ℕ)
    (x : Fin n → Fin M.input_dim → ℚ) (c : Fin n → ℕ)
    (y : Fin n → Fin (M.c_dim + M.s_dim) → ℚ) (r : ℚ)
    (hrec : reconstructionLoss M n (M.input_dim + M.embedding_dim) M.input_dim
      (concatInput M n x c) (M.net n (concatInput M n x c)).1 M.decoder_dist =
      .ok r) :
    (M.hz_to_z = false →
      (validationStep M best n x c y).map (fun t => t.2.1) =
        .ok (M.compute_r2 n M.c_dim
          (contentPart n M.c_dim M.s_dim (M.net n (concatInput M n x c)).2.1)
          (contentPart n M.c_dim M.s_dim y))) ∧
    (M.hz_to_z = true →
      (validationStep M best n x c y).map (fun t => t.2.1) =
        .ok (M.compute_r2 n M.c_dim (contentPart n M.c_dim M.s_dim y)
          (contentPart n M.c_dim M.s_dim
            (M.net n (concatInput M n x c)).2.1))) := by
  constructor <;> intro hdir <;>
    · simp only [validationStep, r2Metric]
      rw [hrec]
      simp [Except.map, hdir]

/-- Witness for C9: the test model has `hz_to_z = false`, so its validation
R2 is computed with the predicted content means as the first argument. -/
theorem validationStep_r2_direction_witness :
    (validationStep testModel bestInit 1 wx wc wy).map (fun t => t.2.1) =
      .ok (testModel.compute_r2 1 1 (contentPart 1 1 1 wout.2.1)
        (contentPart 1 1 1 wy)) :=
  (validationStep_r2_direction testModel bestInit 1 wx wc wy 0
    (by simp [reconstructionLoss, testModel])).1 rfl

/-- Claim C10: when warm start is enabled at construction, the flow bank
holds `nclass` flows and every one of them is initialised by loading the same
single checkpoint path `spline_pth`, so all flows begin training with
identical parameters (the loaded parameter set) rather than per-flow
checkpoints. -/
theorem buildSplineList_warm_start {P : Type} (nclass : ℕ) (spline_pth : String)
    (freshSplineParams : ℕ → P) (torchLoad : String → P)
    (use_warm_start : Bool) (hw : use_warm_start = true) :
    (buildSplineList nclass use_warm_start spline_pth freshSplineParams
      torchLoad).length = nclass ∧
    ∀ p ∈ buildSplineList nclass use_warm_start spline_pth freshSplineParams
      torchLoad, p = torchLoad spline_pth := by
  subst hw
  constructor
  · simp [buildSplineList]
  · intro p hp
    rw [buildSplineList, List.mem_map] at hp
    obtain ⟨i, hi, hpi⟩ := hp
    subst hpi
    rfl

/-- Witness for C10 with two flows, distinct fresh initialisations, and a
checkpoint loader returning `99`. -/
theorem buildSplineList_warm_start_witness :
    (buildSplineList 2 true "spline.pth" (fun i => i + 10)
      (fun _ => (99 : ℕ))).length = 2 ∧
    (99 : ℕ) ∈ buildSplineList 2 true "spline.pth" (fun i => i + 10)
      (fun _ => (99 : ℕ)) ∧
    (99 : ℕ) = (fun _ : String => (99 : ℕ)) "spline.pth" :=
  ⟨(buildSplineList_warm_start 2 "spline.pth" (fun i => i + 10)
      (fun _ => (99 : ℕ)) true rfl).1,
   by decide,
   (buildSplineList_warm_start 2 "spline.pth" (fun i => i + 10)
      (fun _ => (99 : ℕ)) true rfl).2 99 (by decide)⟩
